import Mathlib

/-!
Verification development for the HTTP ingester authentication middleware
(src/HttpIngester/auth.go). The Go source is shallowly embedded: machine
state (the cookie-session map) is passed explicitly, time.Now() becomes an
explicit integer parameter, the crypto/rand draw becomes an explicit
parameter (Option of the drawn bytes, none modelling a read failure), and
Go errors become constructors of an inductive type, one per distinct error
produced by the source. External library calls (net/url parsing,
dgrijalva/jwt-go token serialization) are modelled at their interface
boundary: url.Parse success is a Boolean-valued function parameter, and
JWT tokens are handled symbolically as records carrying their claims,
their signing method, and the key they were signed with, with signature
verification modelled as key equality.
-/

/-- Fixed constants of the source (auth.go, const block lines 27-45). -/
def cookieName : String := "_gravauth"

/-- Default Authorization scheme name, source constant defaultTokenName. -/
def defaultTokenName : String := "Bearer"

/-- Source authType constant none. -/
def noneT : String := "none"

/-- Source authType constant basic. -/
def basicT : String := "basic"

/-- Source authType constant jwtT. -/
def jwtT : String := "jwt"

/-- Source authType constant cookie. -/
def cookieT : String := "cookie"

/-- Source authType constant preToken. -/
def preTokenT : String := "preshared-token"

/-- Source authType constant preParam. -/
def preParamT : String := "preshared-parameter"

/-- Source constant issuer for JWT claims. -/
def issuer : String := "gravwell"

/-- Source constant jwtDuration = 24 * 2 * time.Hour, in seconds. -/
def jwtDuration : Int := 172800

/-- Every distinct error value the embedded portion of auth.go can
produce, one constructor per distinct Go error. -/
inductive AuthErr
  | invalidAuthType
  | loginURLRequired
  | unauthorized
  | missingTokenName
  | missingTokenValue
  | missingUsername (t : String)
  | missingPassword (t : String)
  | invalidLoginURL (t : String)
  | missingTokenValueFor (t : String)
  | nilLogger
  | unknownAuthType (t : String)
  | missingBasicAuth
  | badCredentials
  | emptyUsername
  | emptyPassword
  | noCookie
  | invalidCookie
  | sessionExpired
  | emptyTokenName
  | missingAuthHeader
  | invalidTokenName
  | missingParameter (name : String)
  | unexpectedSigningMethod
  | invalidTokenClaims
  | signatureInvalid
  | tokenExpired
  | entropyError
  | shortRandom
deriving DecidableEq, Repr

/-- The auth configuration record (source struct auth, lines 57-64). -/
structure Auth where
  AuthType : String
  Username : String
  Password : String
  LoginURL : String
  TokenName : String
  TokenValue : String
deriving DecidableEq, Repr

/-- Embeds (a *auth) Validate() of lines 71-111. The Go method mutates
its receiver in the preshared cases, so the embedding returns the updated
record alongside (enabled, err). url.Parse is external library code; its
success on a given string is passed in as urlParseOk. The Go switch has
no default case, so an unrecognized AuthType falls through to the final
return with enabled = false and err = nil. -/
def Validate (urlParseOk : String → Bool) (a : Auth) : Auth × Bool × Option AuthErr :=
  if a.AuthType = noneT then (a, false, Option.none)
  else if a.AuthType = basicT then
    if a.Username = "" then (a, false, Option.some (AuthErr.missingUsername a.AuthType))
    else if a.Password = "" then (a, false, Option.some (AuthErr.missingPassword a.AuthType))
    else (a, true, Option.none)
  else if a.AuthType = jwtT ∨ a.AuthType = cookieT then
    if a.LoginURL = "" then (a, false, Option.some AuthErr.loginURLRequired)
    else if ¬ urlParseOk a.LoginURL then (a, false, Option.some (AuthErr.invalidLoginURL a.LoginURL))
    else if a.Username = "" then (a, false, Option.some (AuthErr.missingUsername a.AuthType))
    else if a.Password = "" then (a, false, Option.some (AuthErr.missingPassword a.AuthType))
    else (a, true, Option.none)
  else if a.AuthType = preTokenT ∨ a.AuthType = preParamT then
    let a2 := if a.TokenName = "" then { a with TokenName := defaultTokenName } else a
    if a2.TokenValue = "" then (a2, false, Option.some (AuthErr.missingTokenValueFor a2.AuthType))
    else (a2, true, Option.none)
  else (a, false, Option.none)

/-- Go strings.ToLower restricted to its ASCII behavior, which is all the
recognized tags exercise. -/
def goToLower (s : String) : String := String.mk (s.data.map Char.toLower)

/-- The ASCII white space characters of Go unicode.IsSpace. -/
def isSpaceChar (c : Char) : Bool :=
  c = ' ' || c = '\t' || c = '\n' || c = '\x0b' || c = '\x0c' || c = '\r'

/-- Go strings.TrimSpace restricted to its ASCII behavior: drop white
space from both ends. -/
def goTrimSpace (s : String) : String :=
  String.mk (((s.data.dropWhile isSpaceChar).reverse.dropWhile isSpaceChar).reverse)

/-- Embeds parseAuthType of lines 141-155: lowercase, trim, then a switch
whose cases are the empty string, none, basic, jwt and cookie only; the
default branch resets the result to none and reports ErrInvalidAuthType.
Note the source switch has no case for preshared-token or
preshared-parameter. -/
def parseAuthType (v : String) : String × Option AuthErr :=
  let r := goTrimSpace (goToLower v)
  if r = "" then (noneT, Option.none)
  else if r = noneT ∨ r = basicT ∨ r = jwtT ∨ r = cookieT then (r, Option.none)
  else (noneT, Option.some AuthErr.invalidAuthType)

/-- Shallow model of the parts of *http.Request the handlers read. The
Authorization header is a String because Go Header.Get returns the empty
string when the header is absent; cookies and query parameters are
association lists in request order (Go r.Cookie and url.Values lookup
take the first entry for a name). -/
structure Request where
  authHeader : String
  queryParams : List (String × List String)
  cookies : List (String × String)
deriving Repr

/-- Lookup in a url.Values map: (keys, ok) of r.URL.Query()[tokName]. -/
def queryLookup (q : List (String × List String)) (k : String) : Option (List String) :=
  (q.find? (fun p => p.1 = k)).map Prod.snd

/-- Go r.Cookie(name): the first cookie with that name, none when the
request has no such cookie (Go returns http.ErrNoCookie then). -/
def getCookie (r : Request) (name : String) : Option String :=
  (r.cookies.find? (fun p => p.1 = name)).map Prod.snd

/-- Go strings.HasPrefix over character lists. -/
def hasPrefixChars : List Char → List Char → Bool
  | [], _ => true
  | _ :: _, [] => false
  | p :: ps, c :: cs => p = c && hasPrefixChars ps cs

/-- Strips a prefix from a character list. It agrees with Go
strings.TrimPrefix whenever the prefix is actually present, and the
source only applies TrimPrefix under a strings.HasPrefix guard. -/
def trimPrefixChars : List Char → List Char → List Char
  | [], s => s
  | _ :: _, [] => []
  | p :: ps, c :: cs => if p = c then trimPrefixChars ps cs else c :: cs

/-- Embeds getAuthToken of lines 467-483: reject an empty token name,
then read the Authorization header; an empty (absent) header is a missing
Authorization error, a header without the prefix tokName plus one space
is an invalid-token-name error, and otherwise the prefix is stripped. -/
def getAuthToken (hdr : String) (tokName : String) : Except AuthErr String :=
  if tokName = "" then Except.error AuthErr.emptyTokenName
  else
    let pfx := (tokName ++ " ").data
    if hdr = "" then Except.error AuthErr.missingAuthHeader
    else if hasPrefixChars pfx hdr.data then Except.ok (String.mk (trimPrefixChars pfx hdr.data))
    else Except.error AuthErr.invalidTokenName

/-- The first non-empty string of the list, or the zero value when every
entry is empty: the loop of getParamToken lines 496-501. -/
def firstNonEmpty : List String → String
  | [] => ""
  | k :: rest => if k.length ≠ 0 then k else firstNonEmpty rest

/-- Embeds getParamToken of lines 485-503: reject an empty token name;
missing-parameter when the query map lacks the key or maps it to an empty
list; otherwise the first non-empty instance (the loop leaves ret at its
zero value, the empty string, when every instance is empty). -/
def getParamToken (r : Request) (tokName : String) : Except AuthErr String :=
  if tokName = "" then Except.error AuthErr.emptyTokenName
  else
    match queryLookup r.queryParams tokName with
    | Option.none => Except.error (AuthErr.missingParameter tokName)
    | Option.some keys =>
      if keys.length = 0 then Except.error (AuthErr.missingParameter tokName)
      else Except.ok (firstNonEmpty keys)

/-- State of the preshared token and parameter handlers (source struct
tokHandler, minus the logger). -/
structure TokHandler where
  tokName : String
  tokValue : String
deriving DecidableEq, Repr

/-- Embeds (pth *preTokenHandler) AuthRequest of lines 221-229. An Option
AuthErr result of none is the Go nil return. -/
def preTokenAuthRequest (h : TokHandler) (r : Request) : Option AuthErr :=
  match getAuthToken r.authHeader h.tokName with
  | Except.error e => Option.some e
  | Except.ok tok =>
    if tok ≠ h.tokValue then Option.some AuthErr.unauthorized else Option.none

/-- Embeds (pth *preParamHandler) AuthRequest of lines 252-260. -/
def preParamAuthRequest (h : TokHandler) (r : Request) : Option AuthErr :=
  match getParamToken r h.tokName with
  | Except.error e => Option.some e
  | Except.ok tok =>
    if tok ≠ h.tokValue then Option.some AuthErr.unauthorized else Option.none

/-- Classifies the errors by which a handler reports that no credential
was presented at all (as opposed to a wrong credential): the two failure
modes of getAuthToken, the two cookie-reading failures, and the basic
strategy missing-header error. -/
def IsMissingAuth : AuthErr → Bool
  | AuthErr.missingAuthHeader => true
  | AuthErr.invalidTokenName => true
  | AuthErr.noCookie => true
  | AuthErr.invalidCookie => true
  | AuthErr.missingBasicAuth => true
  | _ => false

/-- The cookie-session store: the Go map[string]time.Time of
cookieAuthHandler, as an association list with unique keys; expiries are
integers standing for time.Time instants. -/
abbrev SessionMap := List (String × Int)

/-- Map lookup, the comma-ok form expires, ok := m[k]. -/
def mapLookup (m : SessionMap) (k : String) : Option Int :=
  (m.find? (fun p => p.1 = k)).map Prod.snd

/-- Map update m[k] = v. -/
def mapInsert (m : SessionMap) (k : String) (v : Int) : SessionMap :=
  (k, v) :: m.filter (fun p => p.1 ≠ k)

/-- Map deletion delete(m, k). -/
def mapDelete (m : SessionMap) (k : String) : SessionMap :=
  m.filter (fun p => p.1 ≠ k)

/-- Standard base64 alphabet of Go encoding/base64 StdEncoding. -/
def base64Alphabet : List Char :=
  "ABCDEFGHIJKLMNOPQRSTUVWXYZabcdefghijklmnopqrstuvwxyz0123456789+/".data

/-- The character the standard alphabet assigns to a 6-bit value. -/
def b64Char (n : Nat) : Char := base64Alphabet.getD n 'A'

/-- Go base64.StdEncoding.EncodeToString over a byte list: groups of
three bytes become four alphabet characters, a trailing group of one or
two bytes is padded with = signs. -/
def base64Encode : List Nat → String
  | [] => ""
  | [b0] =>
    String.mk [b64Char (b0 / 4), b64Char (b0 % 4 * 16), '=', '=']
  | [b0, b1] =>
    String.mk [b64Char (b0 / 4), b64Char (b0 % 4 * 16 + b1 / 16), b64Char (b1 % 16 * 4), '=']
  | b0 :: b1 :: b2 :: rest =>
    String.mk [b64Char (b0 / 4), b64Char (b0 % 4 * 16 + b1 / 16),
               b64Char (b1 % 16 * 4 + b2 / 64), b64Char (b2 % 64)] ++ base64Encode rest

/-- Embeds randBase64 of lines 269-281. The crypto/rand draw is passed
in: none models a rand.Read error, and a successful draw is checked for
the full requested length before standard base64 encoding, as the source
checks n != len(buff). -/
def randBase64 (draw : Option (List Nat)) (sz : Nat) : Except AuthErr String :=
  match draw with
  | Option.none => Except.error AuthErr.entropyError
  | Option.some bs =>
    if bs.length ≠ sz then Except.error AuthErr.shortRandom
    else Except.ok (base64Encode bs)

/-- Credential state of the cookie-session handler (source struct
cookieAuthHandler minus the mutex, logger and the map, which is passed
explicitly as a SessionMap). -/
structure CookieHandler where
  user : String
  pass : String
deriving DecidableEq, Repr

/-- Response cookie as built at lines 429-434 (http.Cookie fields the
source sets). -/
structure HttpCookie where
  name : String
  value : String
  expires : Int
  path : String
deriving DecidableEq, Repr

/-- Outcome of a Login call: the HTTP status written, or success carrying
the Set-Cookie (cookie strategy) response data. -/
inductive CookieLoginOutcome
  | forbidden
  | internalError
  | okCookie (c : HttpCookie)
deriving DecidableEq, Repr

/-- Embeds (cah *cookieAuthHandler) Login of lines 394-437 after a
successful ParseForm, with u and p the submitted form values. The two
time.Now() calls inside one Login are modelled as the single instant now,
so the new expiry is now + jwtDuration; the random draw for the session
identifier is explicit. On success the new identifier is inserted and
the sweep deletes every entry whose expiry v satisfies now.After(v). -/
def cookieLogin (h : CookieHandler) (st : SessionMap) (u p : String) (now : Int)
    (draw : Option (List Nat)) : SessionMap × CookieLoginOutcome :=
  if u ≠ h.user ∨ p ≠ h.pass then (st, CookieLoginOutcome.forbidden)
  else
    let expires := now + jwtDuration
    match randBase64 draw 32 with
    | Except.error _ => (st, CookieLoginOutcome.internalError)
    | Except.ok ck =>
      let st1 := mapInsert st ck expires
      let st2 := st1.filter (fun p => ¬ now > p.2)
      (st2, CookieLoginOutcome.okCookie
        { name := cookieName, value := ck, expires := expires, path := "/" })

/-- Embeds (cah *cookieAuthHandler) AuthRequest of lines 439-461,
returning the session map after the call alongside the error. Reading the
cookie fails (Go r.Cookie error, returned directly) when no cookie of
that name exists; an empty value is the invalid-cookie error; a looked-up
entry with now.After(expires) is deleted and reported expired; an absent
entry is Unauthorized; otherwise nil. -/
def cookieAuthRequest (st : SessionMap) (now : Int) (r : Request) :
    SessionMap × Option AuthErr :=
  match getCookie r cookieName with
  | Option.none => (st, Option.some AuthErr.noCookie)
  | Option.some v =>
    if v = "" then (st, Option.some AuthErr.invalidCookie)
    else
      match mapLookup st v with
      | Option.some expires =>
        if now > expires then (mapDelete st v, Option.some AuthErr.sessionExpired)
        else (st, Option.none)
      | Option.none => (st, Option.some AuthErr.unauthorized)

/-- Signing methods of the jwt-go library relevant here: the three HMAC
instances plus representatives of other families, enough to state the
algorithm-confusion check. -/
inductive SigningMethod
  | hmacHS256
  | hmacHS384
  | hmacHS512
  | rsaRS256
  | ecdsaES256
  | sigNone
deriving DecidableEq, Repr

/-- Whether the method is of the *jwt.SigningMethodHMAC family, the type
assertion of secretParser at line 362. -/
def isHMAC : SigningMethod → Bool
  | SigningMethod.hmacHS256 => true
  | SigningMethod.hmacHS384 => true
  | SigningMethod.hmacHS512 => true
  | _ => false

/-- The jwt.StandardClaims fields the source sets and checks. -/
structure JWTClaims where
  notBefore : Int
  expiresAt : Int
  issuer : String
deriving DecidableEq, Repr

/-- Symbolic model of a parsed JWT: its header signing method, its
claims, and the key its signature was produced with. Signature
verification of the real library succeeds exactly when the verifying key
equals the signing key (idealized collision-free MAC). -/
structure JWTToken where
  method : SigningMethod
  claims : JWTClaims
  sigKey : String
deriving DecidableEq, Repr

/-- State of the JWT handler (source struct jwtAuthHandler minus the
logger). -/
structure JWTHandler where
  secret : String
  user : String
  pass : String
deriving DecidableEq, Repr

/-- Embeds (bah *jwtAuthHandler) secretParser of lines 360-366: reject a
non-HMAC signing method, otherwise hand the instance secret to the
library as verification key. -/
def secretKeyFunc (h : JWTHandler) (tok : JWTToken) : Except AuthErr String :=
  if isHMAC tok.method then Except.ok h.secret
  else Except.error AuthErr.unexpectedSigningMethod

/-- jwt.StandardClaims.Valid of the dgrijalva/jwt-go library at time now:
the expiry bound applies only when ExpiresAt is set (nonzero), likewise
NotBefore; an unset field is not required. -/
def claimsValid (c : JWTClaims) (now : Int) : Bool :=
  (c.expiresAt == 0 || decide (now ≤ c.expiresAt)) &&
  (c.notBefore == 0 || decide (c.notBefore ≤ now))

/-- jwt.ParseWithClaims with the secretKeyFunc key function, on an
already-decoded token: key function first, then claims validation, then
signature verification, an error from any stage making the overall parse
fail (the library only sets token.Valid when every stage passes). -/
def jwtParseWithClaims (h : JWTHandler) (tok : JWTToken) (now : Int) :
    Except AuthErr JWTToken :=
  match secretKeyFunc h tok with
  | Except.error e => Except.error e
  | Except.ok key =>
    if ¬ claimsValid tok.claims now then Except.error AuthErr.invalidTokenClaims
    else if tok.sigKey ≠ key then Except.error AuthErr.signatureInvalid
    else Except.ok tok

/-- Embeds the part of (bah *jwtAuthHandler) AuthRequest (lines 333-358)
that runs once a token has been extracted and decoded: parse and verify,
then the explicit issuer and window check claims.Issuer != issuer or
t < NotBefore or t > ExpiresAt, which returns the token-expired error.
After a successful parse tok.Valid holds and the two Claims.Valid calls
repeat the check already made inside the parse, so they cannot fail. -/
def jwtAuthCheck (h : JWTHandler) (tok : JWTToken) (now : Int) : Option AuthErr :=
  match jwtParseWithClaims h tok now with
  | Except.error e => Option.some e
  | Except.ok t =>
    if t.claims.issuer ≠ issuer ∨ now < t.claims.notBefore ∨ now > t.claims.expiresAt
    then Option.some AuthErr.tokenExpired
    else Option.none

/-- Full AuthRequest of the JWT handler over a symbolic request: the
Authorization header either yields a decodable token through the Bearer
scheme (getJWTToken plus the wire decode of jwt-go, both external to the
checked logic) or it does not, in which case the extraction or parse
error is returned before any check runs. -/
def jwtAuthRequestModel (h : JWTHandler) (hdr : Option JWTToken) (now : Int) :
    Option AuthErr :=
  match hdr with
  | Option.none => Option.some AuthErr.missingAuthHeader
  | Option.some tok => jwtAuthCheck h tok now

/-- Embeds (jah *jwtAuthHandler) Login of lines 297-331 after a
successful ParseForm: none is the forbidden path for wrong credentials;
on match the minted token carries NotBefore = now, ExpiresAt =
now + jwtDuration and the fixed issuer, signed HS256 with the instance
secret. SignedString with an HMAC key cannot fail, so the
internal-server-error branch is unreachable in the model. -/
def jwtLogin (h : JWTHandler) (u p : String) (now : Int) : Option JWTToken :=
  if u ≠ h.user ∨ p ≠ h.pass then Option.none
  else Option.some
    { method := SigningMethod.hmacHS256,
      claims := { notBefore := now, expiresAt := now + jwtDuration, issuer := issuer },
      sigKey := h.secret }

/-- The closed set of constructed handlers, one constructor per concrete
authHandler implementation of the source. -/
inductive AuthHandler
  | basicH (user pass : String)
  | jwtH (h : JWTHandler)
  | cookieH (h : CookieHandler)
  | preTokenH (h : TokHandler)
  | preParamH (h : TokHandler)
deriving DecidableEq, Repr

/-- Embeds newBasicAuthHandler of lines 171-178: never fails. -/
def newBasicAuthHandler (user pass : String) : Option AuthHandler × Option AuthErr :=
  (Option.some (AuthHandler.basicH user pass), Option.none)

/-- Embeds newJWTAuthHandler of lines 283-295: a 32-byte random secret,
failing when the draw fails. -/
def newJWTAuthHandler (user pass : String) (draw : Option (List Nat)) :
    Option AuthHandler × Option AuthErr :=
  match randBase64 draw 32 with
  | Except.error e => (Option.none, Option.some e)
  | Except.ok secret =>
    (Option.some (AuthHandler.jwtH { secret := secret, user := user, pass := pass }),
     Option.none)

/-- Embeds newCookieAuthHandler of lines 376-392. The source reports the
empty-password error for a nil logger as well (a quirk kept here). -/
def newCookieAuthHandler (user pass : String) (lgr : Option Unit) :
    Option AuthHandler × Option AuthErr :=
  if user = "" then (Option.none, Option.some AuthErr.emptyUsername)
  else if pass = "" then (Option.none, Option.some AuthErr.emptyPassword)
  else if lgr = Option.none then (Option.none, Option.some AuthErr.emptyPassword)
  else (Option.some (AuthHandler.cookieH { user := user, pass := pass }), Option.none)

/-- Embeds newPresharedTokenHandler of lines 204-219. -/
def newPresharedTokenHandler (name value : String) : Option AuthHandler × Option AuthErr :=
  if name = "" then (Option.none, Option.some AuthErr.missingTokenName)
  else if value = "" then (Option.none, Option.some AuthErr.missingTokenValue)
  else (Option.some (AuthHandler.preTokenH { tokName := name, tokValue := value }),
        Option.none)

/-- Embeds newPresharedParamHandler of lines 235-250. -/
def newPresharedParamHandler (name value : String) : Option AuthHandler × Option AuthErr :=
  if name = "" then (Option.none, Option.some AuthErr.missingTokenName)
  else if value = "" then (Option.none, Option.some AuthErr.missingTokenValue)
  else (Option.some (AuthHandler.preParamH { tokName := name, tokValue := value }),
        Option.none)

/-- Embeds (a auth) NewAuthHandler of lines 113-139: nil logger is an
error before anything else; the empty and none tags return with no url,
handler or error; the other recognized tags construct their handler, the
jwt and cookie arms first setting url to the configured login URL (kept
even when construction then fails, as in the source); an unknown tag is
the unknown-authentication-type error. The random draw feeds the JWT
secret generation. -/
def NewAuthHandler (a : Auth) (lgr : Option Unit) (draw : Option (List Nat)) :
    String × Option AuthHandler × Option AuthErr :=
  if lgr = Option.none then ("", Option.none, Option.some AuthErr.nilLogger)
  else if a.AuthType = "" then ("", Option.none, Option.none)
  else if a.AuthType = noneT then ("", Option.none, Option.none)
  else if a.AuthType = basicT then
    let r := newBasicAuthHandler a.Username a.Password
    ("", r.1, r.2)
  else if a.AuthType = jwtT then
    let r := newJWTAuthHandler a.Username a.Password draw
    (a.LoginURL, r.1, r.2)
  else if a.AuthType = cookieT then
    let r := newCookieAuthHandler a.Username a.Password lgr
    (a.LoginURL, r.1, r.2)
  else if a.AuthType = preTokenT then
    let r := newPresharedTokenHandler a.TokenName a.TokenValue
    ("", r.1, r.2)
  else if a.AuthType = preParamT then
    let r := newPresharedParamHandler a.TokenName a.TokenValue
    ("", r.1, r.2)
  else ("", Option.none, Option.some (AuthErr.unknownAuthType a.AuthType))

theorem hasPrefixChars_append (p rest : List Char) :
    hasPrefixChars p (p ++ rest) = true := by
  induction p with
  | nil => rfl
  | cons c cs ih => simp [hasPrefixChars, ih]

theorem trimPrefixChars_append (p rest : List Char) :
    trimPrefixChars p (p ++ rest) = rest := by
  induction p with
  | nil => rfl
  | cons c cs ih => simp [trimPrefixChars, ih]

theorem mapLookup_mapDelete (m : SessionMap) (k : String) :
    mapLookup (mapDelete m k) k = Option.none := by
  induction m with
  | nil => rfl
  | cons a m ih =>
    by_cases h : a.1 = k
    · simpa [mapDelete, h] using ih
    · simpa [mapDelete, mapLookup, List.find?, h] using ih

/-- C9: for every configuration record, Validate either leaves the record
entirely unchanged, or, only when the tag is preshared-token or
preshared-parameter and the TokenName field is empty, changes exactly the
TokenName field to the default scheme name Bearer; no other field is ever
modified. -/
theorem validate_frame (urlParseOk : String → Bool) (a : Auth) :
    (Validate urlParseOk a).1 = a ∨
      ((a.AuthType = preTokenT ∨ a.AuthType = preParamT) ∧ a.TokenName = "" ∧
        (Validate urlParseOk a).1 = { a with TokenName := defaultTokenName }) := by
  by_cases hp : a.AuthType = preTokenT ∨ a.AuthType = preParamT
  · by_cases hn : a.TokenName = ""
    · right
      refine ⟨hp, hn, ?_⟩
      rcases hp with h | h <;>
      · simp [Validate, h, hn, preTokenT, preParamT, noneT, basicT, jwtT, cookieT]
        split <;> rfl
    · left
      rcases hp with h | h <;>
      · simp [Validate, h, hn, preTokenT, preParamT, noneT, basicT, jwtT, cookieT]
        split <;> rfl
  · left
    unfold Validate
    split_ifs <;> rfl

/-- C5 counterexample: a record with the unrecognized tag bogus is
reported not enabled with no error at all by Validate, rather than
failing with the invalid-authentication-type error, because the Validate
switch has no default case. -/
theorem validate_unrecognized_counterexample :
    Validate (fun _ => true)
        { AuthType := "bogus", Username := "u", Password := "p", LoginURL := "",
          TokenName := "", TokenValue := "" } =
      ({ AuthType := "bogus", Username := "u", Password := "p", LoginURL := "",
         TokenName := "", TokenValue := "" }, false, Option.none) ∧
    (Option.none : Option AuthErr) ≠ Option.some AuthErr.invalidAuthType := by
  constructor
  · decide
  · decide

/-- C5 amended: for every configuration record whose AuthType tag is not
one of the six recognized tags, Validate reports the configuration as not
enabled and returns no error, leaving the record unchanged (the
invalid-authentication-type error is produced by parseAuthType, not by
Validate). -/
theorem validate_unrecognized (urlParseOk : String → Bool) (a : Auth)
    (h1 : a.AuthType ≠ noneT) (h2 : a.AuthType ≠ basicT) (h3 : a.AuthType ≠ jwtT)
    (h4 : a.AuthType ≠ cookieT) (h5 : a.AuthType ≠ preTokenT)
    (h6 : a.AuthType ≠ preParamT) :
    Validate urlParseOk a = (a, false, Option.none) := by
  simp [Validate, h1, h2, h3, h4, h5, h6]

/-- C5 witness: the amended statement at a concrete unrecognized tag. -/
theorem validate_unrecognized_witness :
    Validate (fun _ => true)
        { AuthType := "weird", Username := "", Password := "", LoginURL := "",
          TokenName := "", TokenValue := "" } =
      ({ AuthType := "weird", Username := "", Password := "", LoginURL := "",
         TokenName := "", TokenValue := "" }, false, Option.none) :=
  validate_unrecognized (fun _ => true) _ (by decide) (by decide) (by decide)
    (by decide) (by decide) (by decide)

/-- C6: the parseAuthType switch omits the preshared-token and
preshared-parameter tags, so both are rejected with the
invalid-authentication-type error and normalized to none, although every
other part of the source (the constants, Validate, NewAuthHandler)
recognizes them; evaluation of the embedded function at both tags. -/
theorem parseAuthType_preshared_rejected :
    parseAuthType preTokenT = (noneT, Option.some AuthErr.invalidAuthType) ∧
    parseAuthType preParamT = (noneT, Option.some AuthErr.invalidAuthType) ∧
    parseAuthType "" = (noneT, Option.none) ∧
    parseAuthType " None " = (noneT, Option.none) ∧
    parseAuthType "BASIC" = (basicT, Option.none) ∧
    parseAuthType "jwt" = (jwtT, Option.none) ∧
    parseAuthType "cookie" = (cookieT, Option.none) := by
  refine ⟨?_, ?_, ?_, ?_, ?_, ?_, ?_⟩ <;> decide

/-- C10: constructing the handler with a nil logger returns an error and
no handler for every configuration record, and with a non-nil logger the
disabled and empty tags succeed with an empty login URL and no handler. -/
theorem newAuthHandler_nilLogger (a : Auth) (draw : Option (List Nat)) :
    NewAuthHandler a Option.none draw = ("", Option.none, Option.some AuthErr.nilLogger) ∧
    ((a.AuthType = "" ∨ a.AuthType = noneT) →
      NewAuthHandler a (Option.some ()) draw = ("", Option.none, Option.none)) := by
  constructor
  · simp [NewAuthHandler]
  · rintro (h | h) <;> simp [NewAuthHandler, h, noneT]

/-- C10 witness: the none tag constructed with a real logger. -/
theorem newAuthHandler_nilLogger_witness :
    NewAuthHandler
        { AuthType := "none", Username := "", Password := "", LoginURL := "",
          TokenName := "", TokenValue := "" } (Option.some ()) Option.none =
      ("", Option.none, Option.none) :=
  (newAuthHandler_nilLogger _ _).2 (Or.inr rfl)

/-- C7 counterexample: a request whose configured parameter is present
but with every instance empty is rejected with Unauthorized, not with the
missing-parameter error the claim requires for that case, because the
extraction loop then returns the empty string with a nil error and the
comparison against the non-empty configured value fails. -/
theorem preParam_allEmpty_counterexample :
    preParamAuthRequest { tokName := "token", tokValue := "secret" }
        { authHeader := "", queryParams := [("token", [""])], cookies := [] } =
      Option.some AuthErr.unauthorized ∧
    Option.some AuthErr.unauthorized ≠
      Option.some (AuthErr.missingParameter "token") := by
  constructor
  · decide
  · decide

/-- C7 amended: the preshared-parameter AuthRequest fails with the
missing-parameter error exactly when the configured parameter is absent
from the URL query (or present with an empty instance list); when
present, the first non-empty instance, or the empty string if every
instance is empty, is the value compared, with Unauthorized on mismatch
and nil on exact match. -/
theorem preParam_authRequest_spec (h : TokHandler) (r : Request)
    (hn : h.tokName ≠ "") :
    (preParamAuthRequest h r = Option.some (AuthErr.missingParameter h.tokName) ↔
      (queryLookup r.queryParams h.tokName = Option.none ∨
       queryLookup r.queryParams h.tokName = Option.some [])) ∧
    (∀ keys, queryLookup r.queryParams h.tokName = Option.some keys → keys ≠ [] →
      preParamAuthRequest h r =
        if firstNonEmpty keys = h.tokValue then Option.none
        else Option.some AuthErr.unauthorized) := by
  constructor
  · constructor
    · intro hres
      rcases hq : queryLookup r.queryParams h.tokName with _ | keys
      · exact Or.inl rfl
      · by_cases hk : keys = []
        · exact Or.inr (by subst hk; rfl)
        · exfalso
          have hlen : ¬ keys.length = 0 := by simpa [List.length_eq_zero] using hk
          unfold preParamAuthRequest getParamToken at hres
          simp [hn, hq, hlen] at hres
    · rintro (hq | hq) <;> simp [preParamAuthRequest, getParamToken, hn, hq]
  · intro keys hq hne
    have hlen : ¬ keys.length = 0 := by simpa [List.length_eq_zero] using hne
    simp [preParamAuthRequest, getParamToken, hn, hq, hlen]

/-- C7 witness: the leniency case of the amended statement, a parameter
repeated with an empty first instance and a matching second instance. -/
theorem preParam_authRequest_spec_witness :
    preParamAuthRequest { tokName := "token", tokValue := "secret" }
        { authHeader := "", queryParams := [("token", ["", "secret"])], cookies := [] } =
      Option.none := by
  have h := (preParam_authRequest_spec { tokName := "token", tokValue := "secret" }
    { authHeader := "", queryParams := [("token", ["", "secret"])], cookies := [] }
    (by decide)).2 ["", "secret"] (by decide) (by decide)
  rw [h]
  decide

/-- C8: the preshared-token AuthRequest returns one of the two
missing-authentication errors of getAuthToken when the Authorization
header is absent (empty) or does not begin with the configured scheme
name followed by a single space; otherwise the remainder of the header
after that prefix is compared against the configured token value, with
Unauthorized on any inequality and nil exactly on equality. -/
theorem preToken_authRequest_spec (h : TokHandler) (r : Request)
    (hn : h.tokName ≠ "") :
    ((r.authHeader = "" ∨
        hasPrefixChars (h.tokName ++ " ").data r.authHeader.data = false) →
      ∃ e, preTokenAuthRequest h r = Option.some e ∧ IsMissingAuth e = true) ∧
    (∀ rest : List Char, r.authHeader.data = (h.tokName ++ " ").data ++ rest →
      preTokenAuthRequest h r =
        if String.mk rest = h.tokValue then Option.none
        else Option.some AuthErr.unauthorized) := by
  constructor
  · intro hbad
    by_cases he : r.authHeader = ""
    · exact ⟨AuthErr.missingAuthHeader,
        by simp [preTokenAuthRequest, getAuthToken, hn, he], rfl⟩
    · rcases hbad with hbad | hbad
      · exact absurd hbad he
      · refine ⟨AuthErr.invalidTokenName, ?_, rfl⟩
        simp only [String.data_append] at hbad
        simp [preTokenAuthRequest, getAuthToken, hn, he, hbad]
  · intro rest hdata
    have hpfxne : (h.tokName ++ " ").data ≠ [] := by
      rw [String.data_append]
      simp
    have hne : r.authHeader ≠ "" := by
      intro h0
      rw [h0] at hdata
      exact hpfxne (List.append_eq_nil.mp hdata.symm).1
    have h1 : hasPrefixChars (h.tokName.data ++ [' ']) (h.tokName.data ++ ' ' :: rest) = true := by
      simpa using hasPrefixChars_append (h.tokName.data ++ [' ']) rest
    have h2 : trimPrefixChars (h.tokName.data ++ [' ']) (h.tokName.data ++ ' ' :: rest) = rest := by
      simpa using trimPrefixChars_append (h.tokName.data ++ [' ']) rest
    simp [preTokenAuthRequest, getAuthToken, hn, hne, hdata, h1, h2]

/-- C8 witness: a matching Bearer credential at concrete values. -/
theorem preToken_authRequest_spec_witness :
    preTokenAuthRequest { tokName := "Bearer", tokValue := "tok" }
        { authHeader := "Bearer tok", queryParams := [], cookies := [] } =
      Option.none := by
  have h := (preToken_authRequest_spec { tokName := "Bearer", tokValue := "tok" }
    { authHeader := "Bearer tok", queryParams := [], cookies := [] }
    (by decide)).2 "tok".data (by decide)
  rw [h]
  decide

/-- C1: the cookie-session AuthRequest returns a missing-authentication
error (the no-cookie or invalid-cookie error) and leaves the map unchanged
when the request carries no session cookie or an empty one; for a
presented identifier, an absent map entry is Unauthorized, an entry whose
expiry is earlier than now is deleted and reported as session-expired,
and an unexpired entry succeeds; consequently probing the same expired
identifier a second time, at any later instant, returns Unauthorized
rather than session-expired. -/
theorem cookie_authRequest_spec (st : SessionMap) (now now2 : Int) (r : Request) :
    ((getCookie r cookieName = Option.none ∨ getCookie r cookieName = Option.some "") →
      (cookieAuthRequest st now r).1 = st ∧
      ∃ e, (cookieAuthRequest st now r).2 = Option.some e ∧ IsMissingAuth e = true) ∧
    (∀ v, getCookie r cookieName = Option.some v → v ≠ "" →
      (mapLookup st v = Option.none →
        cookieAuthRequest st now r = (st, Option.some AuthErr.unauthorized)) ∧
      (∀ expiry, mapLookup st v = Option.some expiry →
        (expiry < now →
          cookieAuthRequest st now r =
            (mapDelete st v, Option.some AuthErr.sessionExpired) ∧
          (cookieAuthRequest (mapDelete st v) now2 r).2 =
            Option.some AuthErr.unauthorized) ∧
        (now ≤ expiry → cookieAuthRequest st now r = (st, Option.none)))) := by
  constructor
  · rintro (hc | hc) <;> simp [cookieAuthRequest, hc, IsMissingAuth]
  · intro v hc hv
    constructor
    · intro hl
      simp [cookieAuthRequest, hc, hv, hl]
    · intro expiry hl
      constructor
      · intro hexp
        constructor
        · simp [cookieAuthRequest, hc, hv, hl, hexp]
        · simp [cookieAuthRequest, hc, hv, mapLookup_mapDelete]
      · intro hexp
        have : ¬ now > expiry := by omega
        simp [cookieAuthRequest, hc, hv, hl, this]

/-- C1 witness: an expired concrete session is deleted and reported
expired, and the second probe of the same identifier is Unauthorized. -/
theorem cookie_authRequest_spec_witness :
    cookieAuthRequest [("abc", (10 : Int))] 20
        { authHeader := "", queryParams := [], cookies := [("_gravauth", "abc")] } =
      ([], Option.some AuthErr.sessionExpired) ∧
    (cookieAuthRequest [] 20
        { authHeader := "", queryParams := [], cookies := [("_gravauth", "abc")] }).2 =
      Option.some AuthErr.unauthorized := by
  have h := ((cookie_authRequest_spec [("abc", (10 : Int))] 20 20
    { authHeader := "", queryParams := [], cookies := [("_gravauth", "abc")] }).2
    "abc" rfl (by decide)).2 10 rfl
  exact (h.1 (by decide))

/-- A character of the web-safe (URL-safe, RFC 4648 section 5) base64
alphabet, padding included: alphanumerics, minus, underscore, equals.
The plus and slash of the standard alphabet are not web safe. -/
def isWebSafeChar (c : Char) : Bool :=
  (decide ('A' ≤ c) && decide (c ≤ 'Z')) ||
  (decide ('a' ≤ c) && decide (c ≤ 'z')) ||
  (decide ('0' ≤ c) && decide (c ≤ '9')) ||
  c = '-' || c = '_' || c = '='

/-- Whether every character of the string is web safe. -/
def isWebSafe (s : String) : Bool := s.data.all isWebSafeChar

/-- C3 counterexample: randBase64 uses the standard base64 alphabet, not
a web-safe one, so a draw of 32 bytes of 255 yields a session identifier
made of slashes, which the claim says should be web-safe encoded; the
login otherwise succeeds as described. -/
theorem cookieLogin_websafe_counterexample :
    (cookieLogin { user := "u", pass := "p" } [] "u" "p" 0
        (Option.some (List.replicate 32 255))).2 =
      CookieLoginOutcome.okCookie
        { name := cookieName, value := base64Encode (List.replicate 32 255),
          expires := 172800, path := "/" } ∧
    isWebSafe (base64Encode (List.replicate 32 255)) = false := by
  constructor
  · decide
  · decide

/-- C3 amended: for a cookie-session Login with matching credentials and
a successful 32-byte random draw, the standard-base64-encoded session
identifier is inserted with expiry now plus 48 hours and survives the
sweep, every entry whose expiry has passed is deleted, no unexpired entry
is deleted, and the response carries a Set-Cookie with that identifier,
the same expiry, and path slash. -/
theorem cookieLogin_spec (h : CookieHandler) (st : SessionMap) (now : Int)
    (bs : List Nat) (hlen : bs.length = 32) :
    (cookieLogin h st h.user h.pass now (Option.some bs)).2 =
      CookieLoginOutcome.okCookie
        { name := cookieName, value := base64Encode bs,
          expires := now + jwtDuration, path := "/" } ∧
    mapLookup (cookieLogin h st h.user h.pass now (Option.some bs)).1
        (base64Encode bs) = Option.some (now + jwtDuration) ∧
    (∀ kv, kv ∈ (cookieLogin h st h.user h.pass now (Option.some bs)).1 →
      now ≤ kv.2) ∧
    (∀ kv, kv ∈ mapInsert st (base64Encode bs) (now + jwtDuration) → now ≤ kv.2 →
      kv ∈ (cookieLogin h st h.user h.pass now (Option.some bs)).1) := by
  have h0 : (0 : Int) < jwtDuration := by decide
  have hkeep : ¬ now > now + jwtDuration := by omega
  have heq : cookieLogin h st h.user h.pass now (Option.some bs) =
      ((mapInsert st (base64Encode bs) (now + jwtDuration)).filter
          (fun p => ¬ now > p.2),
       CookieLoginOutcome.okCookie
         { name := cookieName, value := base64Encode bs,
           expires := now + jwtDuration, path := "/" }) := by
    simp [cookieLogin, randBase64, hlen]
  rw [heq]
  refine ⟨rfl, ?_, ?_, ?_⟩
  · have h0le : (0 : Int) ≤ jwtDuration := le_of_lt h0
    simp [mapInsert, mapLookup, List.filter_cons, hkeep, h0le, List.find?_cons]
  · intro kv hkv
    have := (List.mem_filter.mp hkv).2
    simp at this
    omega
  · intro kv h1 h2
    refine List.mem_filter.mpr ⟨h1, ?_⟩
    simp
    omega

/-- C3 witness: a successful login at concrete values produces the
Set-Cookie of the amended statement. -/
theorem cookieLogin_spec_witness :
    (cookieLogin { user := "u", pass := "p" } [] "u" "p" 0
        (Option.some (List.replicate 32 0))).2 =
      CookieLoginOutcome.okCookie
        { name := cookieName, value := base64Encode (List.replicate 32 0),
          expires := 0 + jwtDuration, path := "/" } :=
  (cookieLogin_spec { user := "u", pass := "p" } [] 0 (List.replicate 32 0)
    (by decide)).1

/-- C4: on a parseable token, the JWT AuthRequest errors whenever the
signing method is outside the HMAC family, or the issuer claim differs
from the fixed constant, or the time lies outside the closed interval
from notBefore to expiresAt; and it returns nil only when the signature
verifies under the instance secret and all three checks pass. -/
theorem jwt_authRequest_checks (h : JWTHandler) (tok : JWTToken) (now : Int) :
    ((isHMAC tok.method = false ∨ tok.claims.issuer ≠ issuer ∨
        now < tok.claims.notBefore ∨ tok.claims.expiresAt < now) →
      (jwtAuthRequestModel h (Option.some tok) now).isSome = true) ∧
    (jwtAuthRequestModel h (Option.some tok) now = Option.none →
      tok.sigKey = h.secret ∧ isHMAC tok.method = true ∧
      tok.claims.issuer = issuer ∧ tok.claims.notBefore ≤ now ∧
      now ≤ tok.claims.expiresAt) := by
  by_cases hm : isHMAC tok.method = true
  case neg =>
    rw [Bool.not_eq_true] at hm
    simp [jwtAuthRequestModel, jwtAuthCheck, jwtParseWithClaims, secretKeyFunc, hm]
  case pos =>
    by_cases hcv : claimsValid tok.claims now = true
    case neg =>
      rw [Bool.not_eq_true] at hcv
      simp [jwtAuthRequestModel, jwtAuthCheck, jwtParseWithClaims, secretKeyFunc, hm, hcv]
    case pos =>
      by_cases hs : tok.sigKey = h.secret
      case neg =>
        simp [jwtAuthRequestModel, jwtAuthCheck, jwtParseWithClaims, secretKeyFunc,
          hm, hcv, hs]
      case pos =>
        by_cases hc : tok.claims.issuer ≠ issuer ∨ now < tok.claims.notBefore ∨
          now > tok.claims.expiresAt
        · constructor
          · intro _
            simp [jwtAuthRequestModel, jwtAuthCheck, jwtParseWithClaims, secretKeyFunc,
              hm, hcv, hs, hc]
          · intro hres
            exfalso
            simp [jwtAuthRequestModel, jwtAuthCheck, jwtParseWithClaims, secretKeyFunc,
              hm, hcv, hs, hc] at hres
        · push_neg at hc
          constructor
          · intro hbad
            rcases hbad with hbad | hbad | hbad | hbad
            · simp [hm] at hbad
            · exact absurd hc.1 hbad
            · omega
            · omega
          · intro _
            exact ⟨hs, hm, hc.1, by omega, by omega⟩

/-- C4 witness: a well-signed HMAC token with a wrong issuer is rejected
at a concrete instant inside its validity window. -/
theorem jwt_authRequest_checks_witness :
    (jwtAuthRequestModel { secret := "s", user := "u", pass := "p" }
        (Option.some { method := SigningMethod.hmacHS256,
                       claims := { notBefore := 0, expiresAt := 100, issuer := "evil" },
                       sigKey := "s" }) 50).isSome = true :=
  (jwt_authRequest_checks _ _ _).1 (Or.inr (Or.inl (by decide)))

/-- C2: for matching form credentials, Login mints a signed token, and
AuthRequest presenting that token accepts it at every time from issuance
through the 48-hour window and rejects it once the clock is past
notBefore plus 48 hours. -/
theorem jwt_roundtrip (h : JWTHandler) (u p : String) (now t : Int)
    (hu : u = h.user) (hp : p = h.pass) :
    ∃ tok, jwtLogin h u p now = Option.some tok ∧
      (now ≤ t → t ≤ now + jwtDuration →
        jwtAuthRequestModel h (Option.some tok) t = Option.none) ∧
      (now + jwtDuration < t →
        (jwtAuthRequestModel h (Option.some tok) t).isSome = true) := by
  have hd : jwtDuration = 172800 := rfl
  refine ⟨{ method := SigningMethod.hmacHS256,
            claims := { notBefore := now, expiresAt := now + jwtDuration,
                        issuer := issuer },
            sigKey := h.secret }, ?_, ?_, ?_⟩
  · simp [jwtLogin, hu, hp]
  · intro h1 h2
    have hcv : claimsValid
        { notBefore := now, expiresAt := now + jwtDuration, issuer := issuer } t = true := by
      simp [claimsValid]
      omega
    simp [jwtAuthRequestModel, jwtAuthCheck, jwtParseWithClaims, secretKeyFunc,
      isHMAC, hcv]
    omega
  · intro h1
    by_cases hz : now + jwtDuration = 0
    · have hcv : claimsValid
          { notBefore := now, expiresAt := now + jwtDuration, issuer := issuer } t = true := by
        simp [claimsValid]
        omega
      simp [jwtAuthRequestModel, jwtAuthCheck, jwtParseWithClaims, secretKeyFunc,
        isHMAC, hcv]
      omega
    · have hcv : claimsValid
          { notBefore := now, expiresAt := now + jwtDuration, issuer := issuer } t = false := by
        simp [claimsValid]
        omega
      simp [jwtAuthRequestModel, jwtAuthCheck, jwtParseWithClaims, secretKeyFunc,
        isHMAC, hcv]

/-- C2 witness: a token minted at time 0 for the right credentials is
accepted at time 1. -/
theorem jwt_roundtrip_witness :
    jwtAuthRequestModel { secret := "s", user := "u", pass := "p" }
        (jwtLogin { secret := "s", user := "u", pass := "p" } "u" "p" 0) 1 =
      Option.none := by
  obtain ⟨tok, h1, h2, h3⟩ :=
    jwt_roundtrip { secret := "s", user := "u", pass := "p" } "u" "p" 0 1 rfl rfl
  rw [h1]
  exact h2 (by decide) (by decide)
